import Mathlib

/-!
Shallow embedding of `src/task_generator.py` (class `TaskGenerator`) from the
EMS-Meta-RL repository, together with theorems checking the specification's
claims about it.

Modelling conventions:
* Task and metadata payloads are opaque type parameters `T`, `M`; the extra
  keyword parameters forwarded to the factory are an opaque `P`.
* Python exceptions become an error inductive `Err ε`, where `ε` is the type
  of errors the external factory callable can raise.  The factory callable
  `task_callable(random_seed=seed, **params)` becomes
  `Nat → P → Except ε (T × M)`.
* The `random` module is modelled by an explicit oracle `Draws` supplied to
  each call: `rand_unit` is the value of `random.random()` (a real in
  `[0,1)`, modelled as `ℚ`), `choice_idx` is the index drawn by
  `random.choice` / `random.choices` / `random.randint` (taken modulo the
  list length, so that every valid index is reachable; the weighted
  distribution itself is not modelled), and `rand_bits` is the value of
  `random.getrandbits(64)` (reduced modulo `2 ^ 64`).
* Steps (`meta_step`) are `Nat`: the caller's outer-iteration index.
* Mutation of `self` becomes explicit state passing: each operation returns
  `(Except (Err ε) result) × TaskGenerator ...`, the second component being
  the state after the call (mutations made before a raise persist, as in
  Python).
-/

namespace EMSMetaRL

/-- Errors arising in `task_generator.py`.  `assertionError` is the
constructor `assert`; the `ValueError`s raised at distinct sites get distinct
constructors (`emptyTasksError`, `unknownSamplingMethod`, `weightsMismatch`,
`noTaskSource`); `notImplementedError` is the weighted-revisit raise;
`typeError` models `self.selected_tasks[task_idx]` when `task_idx` is `None`
(the Python `TypeError: list indices must be integers`); `indexError` models
an out-of-range list index; `factoryRaised e` is an exception raised by the
factory callable, propagated unchanged by the code; `taskGenerationError e`
is the wrapper error described in spec §7 — the code never produces it, it
exists only so that the spec's claim about it can be stated. -/
inductive Err (ε : Type) where
  | assertionError : Err ε
  | emptyTasksError : Err ε
  | unknownSamplingMethod (m : String) : Err ε
  | weightsMismatch : Err ε
  | notImplementedError : Err ε
  | typeError : Err ε
  | indexError : Err ε
  | noTaskSource : Err ε
  | factoryRaised (e : ε) : Err ε
  | taskGenerationError (e : ε) : Err ε
deriving DecidableEq

/-- One entry of `self.selected_tasks`: the dict
`{'task': …, 'task_info': …, 'seed': …, 'meta_step': […]}`.  Catalog-mode
entries carry `seed = none`; factory-mode records carry `seed = some s`.
`meta_step` is the list of outer-iteration indices (creation step first,
revisit steps appended). -/
structure TaskRecord (T M : Type) where
  task : T
  task_info : M
  seed : Option Nat
  meta_step : List Nat
deriving DecidableEq

/-- Explicit oracle for the `random` module draws a single `get_task` call
can consume (see the module docstring). -/
structure Draws where
  rand_unit : ℚ
  choice_idx : Nat
  rand_bits : Nat
deriving DecidableEq

/-- The state of a `TaskGenerator` instance: its configuration fields and its
mutable state (`revisit_counter`, `selected_tasks`). -/
structure TaskGenerator (T M P ε : Type) where
  tasks : Option (List (T × M))
  task_callable : Option (Nat → P → Except ε (T × M))
  task_callable_params : P
  revisit_ratio : ℚ
  revisit_start : Nat
  sampling_method : String
  sampling_weights : Option (List ℚ)
  revisit_counter : Nat
  selected_tasks : List (TaskRecord T M)

variable {T M P ε : Type}

/-- `TaskGenerator.__init__`: the `assert` fails (AssertionError) exactly when
both `tasks` and `task_callable` are `None`; otherwise all fields are set,
with `revisit_counter = 0` and `selected_tasks = []`. -/
def TaskGenerator.init (tasks : Option (List (T × M)))
    (task_callable : Option (Nat → P → Except ε (T × M)))
    (task_callable_params : P) (revisit_ratio : ℚ) (revisit_start : Nat)
    (sampling_method : String) (sampling_weights : Option (List ℚ)) :
    Except (Err ε) (TaskGenerator T M P ε) :=
  match tasks, task_callable with
  | none, none => .error .assertionError
  | _, _ =>
      .ok { tasks := tasks, task_callable := task_callable,
            task_callable_params := task_callable_params,
            revisit_ratio := revisit_ratio, revisit_start := revisit_start,
            sampling_method := sampling_method,
            sampling_weights := sampling_weights,
            revisit_counter := 0, selected_tasks := [] }

/-- `TaskGenerator.reset_history`. -/
def TaskGenerator.reset_history (g : TaskGenerator T M P ε) :
    TaskGenerator T M P ε :=
  { g with selected_tasks := [], revisit_counter := 0 }

/-- `TaskGenerator._select_task_index_for_revisit`.  Returns the selected
index into `selected_tasks` (`some i`), or `none` when the Python function
falls off the end without a `return` (unknown `sampling_method`), or raises.
The `random.randint(0, len-1)` draw is the oracle's `choice_idx` modulo the
history length (callers only invoke this with a non-empty history). -/
def TaskGenerator.select_task_index_for_revisit (g : TaskGenerator T M P ε)
    (d : Draws) : Except (Err ε) (Option Nat) × TaskGenerator T M P ε :=
  if g.sampling_method = "cyclic" then
    (.ok (some (g.revisit_counter % g.selected_tasks.length)),
     { g with revisit_counter := g.revisit_counter + 1 })
  else if g.sampling_method = "random" then
    (.ok (some (d.choice_idx % g.selected_tasks.length)),
     { g with revisit_counter := g.revisit_counter + 1 })
  else if g.sampling_method = "weighted" then
    (.error .notImplementedError,
     { g with revisit_counter := g.revisit_counter + 1 })
  else
    (.ok none, g)

/-- The revisit branch of `TaskGenerator.get_task` (source lines 84–91):
select an index, fetch the record, append the current step to its
`meta_step` list, and return the record's task, info and the FIRST element
of the (updated) `meta_step` list.  Indexing the history with the `None`
returned by the selector on an unknown `sampling_method` is the Python
`TypeError`. -/
def TaskGenerator.do_revisit (g : TaskGenerator T M P ε) (meta_step : Nat)
    (d : Draws) :
    Except (Err ε) (T × M × Option Nat) × TaskGenerator T M P ε :=
  match g.select_task_index_for_revisit d with
  | (.error e, g2) => (.error e, g2)
  | (.ok none, g2) => (.error .typeError, g2)
  | (.ok (some task_idx), g2) =>
      match g2.selected_tasks.get? task_idx with
      | none => (.error .indexError, g2)
      | some record =>
          let record2 : TaskRecord T M :=
            { record with meta_step := record.meta_step ++ [meta_step] }
          (.ok (record.task, record.task_info, some (record2.meta_step.head (by simp [record2]))),
           { g2 with selected_tasks := g2.selected_tasks.set task_idx record2 })

/-- The generation branch of `TaskGenerator.get_task` (source lines 93–101):
synthesize a seed when the caller supplied none (`random.getrandbits(64)`),
call the factory, propagate its exception UNCHANGED if it raises, otherwise
append a new record `{task, seed, task_info, meta_step: [meta_step]}` and
return `(task, info, meta_step)`. -/
def TaskGenerator.generate_new (g : TaskGenerator T M P ε)
    (f : Nat → P → Except ε (T × M)) (meta_step : Nat) (seed : Option Nat)
    (d : Draws) :
    Except (Err ε) (T × M × Option Nat) × TaskGenerator T M P ε :=
  let seed2 := match seed with
    | none => d.rand_bits % 2 ^ 64
    | some s => s
  match f seed2 g.task_callable_params with
  | .error e => (.error (.factoryRaised e), g)
  | .ok (task, info) =>
      (.ok (task, info, some meta_step),
       { g with selected_tasks :=
           g.selected_tasks ++ [⟨task, info, some seed2, [meta_step]⟩] })

/-- The selection chain of the catalog branch of `get_task` (source lines
65–74): cyclic takes `meta_step % len`, random takes a uniform draw over the
catalog (the oracle's `choice_idx` modulo the length), weighted checks the
weights and draws (the weighted distribution itself is not modelled, only
that some catalog entry is drawn), and any other `sampling_method` raises
the configuration `ValueError`. -/
def TaskGenerator.catalog_select (g : TaskGenerator T M P ε)
    (ts : List (T × M)) (pos : 0 < ts.length) (meta_step : Nat) (d : Draws) :
    Except (Err ε) (T × M) :=
  if g.sampling_method = "cyclic" then
    .ok (ts.get ⟨meta_step % ts.length, Nat.mod_lt _ pos⟩)
  else if g.sampling_method = "random" then
    .ok (ts.get ⟨d.choice_idx % ts.length, Nat.mod_lt _ pos⟩)
  else if g.sampling_method = "weighted" then
    match g.sampling_weights with
    | none => .error .weightsMismatch
    | some w =>
        if w.length ≠ ts.length then .error .weightsMismatch
        else .ok (ts.get ⟨d.choice_idx % ts.length, Nat.mod_lt _ pos⟩)
  else .error (.unknownSamplingMethod g.sampling_method)

/-- `TaskGenerator.get_task`.  Catalog branch first (`self.tasks is not
None`): empty-catalog check, selection by `sampling_method`, append a log
entry with `seed = None`, return origin `none`.  Otherwise the factory
branch: the revisit/generate decision
`can_revisit and (random.random() < self.revisit_ratio)`, where
`can_revisit = (meta_step >= self.revisit_start) and bool(self.selected_tasks)`.
If neither source is configured, the final `ValueError`. -/
def TaskGenerator.get_task (g : TaskGenerator T M P ε) (meta_step : Nat)
    (seed : Option Nat) (d : Draws) :
    Except (Err ε) (T × M × Option Nat) × TaskGenerator T M P ε :=
  match g.tasks with
  | some ts =>
      if hlen : ts.length = 0 then (.error .emptyTasksError, g)
      else
        match g.catalog_select ts (Nat.pos_of_ne_zero hlen) meta_step d with
        | .error e => (.error e, g)
        | .ok (task, info) =>
            (.ok (task, info, none),
             { g with selected_tasks :=
                 g.selected_tasks ++ [⟨task, info, none, [meta_step]⟩] })
  | none =>
    match g.task_callable with
    | some f =>
        if g.revisit_start ≤ meta_step ∧ g.selected_tasks.isEmpty = false ∧
            d.rand_unit < g.revisit_ratio then
          g.do_revisit meta_step d
        else
          g.generate_new f meta_step seed d
    | none => (.error .noTaskSource, g)

/-- Run `get_task` once per entry of `calls` (step, optional seed, oracle),
threading the state and collecting the results in order. -/
def TaskGenerator.run_steps (g : TaskGenerator T M P ε) :
    List (Nat × Option Nat × Draws) →
    List (Except (Err ε) (T × M × Option Nat)) × TaskGenerator T M P ε
  | [] => ([], g)
  | (ms, seed, d) :: rest =>
      let r := g.get_task ms seed d
      let rr := r.2.run_steps rest
      (r.1 :: rr.1, rr.2)

/-! Concrete fixtures used by the claim theorems and their witnesses. -/

/-- A factory that returns the seed itself as the task (so records are
distinguishable) and never raises. -/
def fNat : Nat → Unit → Except Empty (Nat × Nat) := fun s _ => .ok (s, 0)

/-- A factory over error type `Unit` that always raises. -/
def fFail : Nat → Unit → Except Unit (Nat × Nat) := fun _ _ => .error ()

/-- A factory used for the both-sources-supplied fixtures. -/
def fUnit : Nat → Unit → Except Empty (Nat × Nat) := fun s _ => .ok (s, 1)

/-- Oracle with `random.random() = 0`, `choice_idx = 0`, `getrandbits = 0`. -/
def d0 : Draws := ⟨0, 0, 0⟩

/-- Factory-mode fixture: `revisit_ratio = 1.0`, `revisit_start = 5`, cyclic
sampling (the spec §8 property-3 configuration). -/
def gFac : TaskGenerator Nat Nat Unit Empty :=
  { tasks := none, task_callable := some fNat, task_callable_params := (),
    revisit_ratio := 1, revisit_start := 5, sampling_method := "cyclic",
    sampling_weights := none, revisit_counter := 0, selected_tasks := [] }

/-- The five generation calls at steps `0..4` (explicit seeds `10..14`). -/
def calls04 : List (Nat × Option Nat × Draws) :=
  [(0, some 10, d0), (1, some 11, d0), (2, some 12, d0), (3, some 13, d0),
   (4, some 14, d0)]

/-- The state of `gFac` after the calls at steps `0..4`. -/
def gFac5 : TaskGenerator Nat Nat Unit Empty := (gFac.run_steps calls04).2

/-- Factory-mode fixture for the lineage scenario: `revisit_ratio = 1.0`,
`revisit_start = 0`, cyclic sampling. -/
def gLin : TaskGenerator Nat Nat Unit Empty :=
  { tasks := none, task_callable := some fNat, task_callable_params := (),
    revisit_ratio := 1, revisit_start := 0, sampling_method := "cyclic",
    sampling_weights := none, revisit_counter := 0, selected_tasks := [] }

/-- Factory-mode fixture for the lineage scenario under the DEFAULT random
policy: `revisit_ratio = 1.0`, `revisit_start = 0`,
`sampling_method = "random"`. -/
def gLinR : TaskGenerator Nat Nat Unit Empty :=
  { tasks := none, task_callable := some fNat, task_callable_params := (),
    revisit_ratio := 1, revisit_start := 0, sampling_method := "random",
    sampling_weights := none, revisit_counter := 0, selected_tasks := [] }

/-- The state of `gLinR` after one generation call at step 3. -/
def gLinR1 : TaskGenerator Nat Nat Unit Empty :=
  (gLinR.run_steps [(3, some 30, d0)]).2

/-- Factory-mode fixture for the round-robin scenario: `revisit_start = 3`,
so steps `0..2` generate (history of size 3) and steps `3..6` revisit. -/
def gRR3 : TaskGenerator Nat Nat Unit Empty :=
  { tasks := none, task_callable := some fNat, task_callable_params := (),
    revisit_ratio := 1, revisit_start := 3, sampling_method := "cyclic",
    sampling_weights := none, revisit_counter := 0, selected_tasks := [] }

/-- Factory-mode fixture whose factory always raises. -/
def gFail : TaskGenerator Nat Nat Unit Unit :=
  { tasks := none, task_callable := some fFail, task_callable_params := (),
    revisit_ratio := 0, revisit_start := 0, sampling_method := "random",
    sampling_weights := none, revisit_counter := 0, selected_tasks := [] }

/-- Catalog-mode fixture with an unknown sampling method. -/
def gBogusCat : TaskGenerator Nat Nat Unit Empty :=
  { tasks := some [(1, 2)], task_callable := none, task_callable_params := (),
    revisit_ratio := 1, revisit_start := 0, sampling_method := "sorted",
    sampling_weights := none, revisit_counter := 0, selected_tasks := [] }

/-- Factory-mode fixture with an unknown sampling method and a non-empty
history, so that the revisit branch is taken (`ratio = 1`, `start = 0`). -/
def gBogusFac : TaskGenerator Nat Nat Unit Empty :=
  { tasks := none, task_callable := some fNat, task_callable_params := (),
    revisit_ratio := 1, revisit_start := 0, sampling_method := "sorted",
    sampling_weights := none, revisit_counter := 0,
    selected_tasks := [⟨10, 0, some 10, [0]⟩] }

/-- Catalog-mode fixture with three entries and cyclic sampling. -/
def gCat : TaskGenerator Nat Nat Unit Empty :=
  { tasks := some [(1, 10), (2, 20), (3, 30)], task_callable := none,
    task_callable_params := (), revisit_ratio := 1, revisit_start := 0,
    sampling_method := "cyclic", sampling_weights := none,
    revisit_counter := 0, selected_tasks := [] }

/-- The state produced by constructing with both a catalog and a factory. -/
def gBoth : TaskGenerator Nat Nat Unit Empty :=
  { tasks := some [(7, 8)], task_callable := some fUnit,
    task_callable_params := (), revisit_ratio := 1, revisit_start := 0,
    sampling_method := "cyclic", sampling_weights := none,
    revisit_counter := 0, selected_tasks := [] }

/-- Factory-mode fixture with `sampling_method = "weighted"` and a non-empty
history, so that a revisit decision is forced (`ratio = 1`, `start = 0`). -/
def gW : TaskGenerator Nat Nat Unit Empty :=
  { tasks := none, task_callable := some fNat, task_callable_params := (),
    revisit_ratio := 1, revisit_start := 0, sampling_method := "weighted",
    sampling_weights := none, revisit_counter := 0,
    selected_tasks := [⟨10, 0, some 10, [0]⟩] }

/-- The history record cyclic revisit selection picks in state `g`: the one
at index `revisit_counter % len(selected_tasks)`. -/
def TaskGenerator.revisit_record (g : TaskGenerator T M P ε)
    (hne : g.selected_tasks ≠ []) : TaskRecord T M :=
  g.selected_tasks.get ⟨g.revisit_counter % g.selected_tasks.length,
    Nat.mod_lt _ (List.length_pos.mpr hne)⟩

/-- The catalog entry cyclic catalog sampling serves at step `s`:
`ts[s % len(ts)]`. -/
def cyclicEntry (ts : List (T × M)) (hne : ts ≠ []) (s : Nat) : T × M :=
  ts.get ⟨s % ts.length, Nat.mod_lt _ (List.length_pos.mpr hne)⟩

/-- Projection used to state concrete-run results decidably (the `Except`
layer has no derived decidable equality): `some` of the returned origin on
success, `none` on error. -/
def originOf (r : Except (Err Empty) (Nat × Nat × Option Nat)) :
    Option (Option Nat) :=
  match r with
  | .ok x => some x.2.2
  | .error _ => none

/-! Claim theorems. -/

/-- C1, counterexample: the claim says construction fails with
`ConfigurationError` when BOTH `catalog` and `factory` are supplied, but the
`assert` in `__init__` only rejects the neither-supplied case: constructing
with both a catalog and a factory succeeds. -/
theorem c1_counterexample :
    TaskGenerator.init (some [((7 : Nat), (8 : Nat))]) (some fUnit) () 1 0
      "cyclic" none = .ok gBoth := rfl

/-- C1, amended: construction fails (with the `assert`'s error) exactly when
NEITHER `tasks` nor `task_callable` is supplied; every other configuration —
including one where both are supplied — succeeds, with fresh mutable state.
-/
theorem c1_construction (tasks : Option (List (T × M)))
    (task_callable : Option (Nat → P → Except ε (T × M))) (p : P) (rr : ℚ)
    (rs : Nat) (sm : String) (sw : Option (List ℚ)) :
    (∀ e, TaskGenerator.init tasks task_callable p rr rs sm sw = .error e ↔
        tasks = none ∧ task_callable = none ∧ e = Err.assertionError) ∧
    (∀ g, TaskGenerator.init tasks task_callable p rr rs sm sw = .ok g →
        g.tasks = tasks ∧ g.task_callable = task_callable ∧
        g.revisit_counter = 0 ∧ g.selected_tasks = []) := by
  cases tasks <;> cases task_callable <;>
    simp [TaskGenerator.init, eq_comm]

/-- C1, witness for the amended theorem. -/
theorem c1_construction_witness :
    TaskGenerator.init (T := Nat) (M := Nat) (P := Unit) (ε := Empty)
      none none () 1 0 "random" none = .error .assertionError :=
  ((c1_construction none none () 1 0 "random" none).1
      Err.assertionError).mpr ⟨rfl, rfl, rfl⟩

/-- C2: on the catalog path an unknown `sampling_method` does raise the
configuration `ValueError`, but on the factory revisit path the selector
`_select_task_index_for_revisit` falls off the end and returns `None`, so
`self.selected_tasks[None]` raises a `TypeError`, not the configuration
error the spec promises. -/
theorem c2_unknown_method_divergence :
    (gBogusCat.get_task 0 none d0).1 =
        .error (.unknownSamplingMethod "sorted") ∧
    (gBogusFac.get_task 5 none d0).1 = .error .typeError ∧
    (gBogusFac.get_task 5 none d0).1 ≠
        .error (.unknownSamplingMethod "sorted") :=
  ⟨rfl, rfl, fun hc => nomatch hc⟩

/-- C3, counterexample: the claim says a factory failure is propagated
wrapped as a `TaskGenerationError`, but the code calls the factory with no
`try`/`except` at all, so the factory's own error propagates unchanged.
With error type `Unit` the only possible wrapped error is
`taskGenerationError ()`, and the call does not produce it. -/
theorem c3_counterexample :
    (gFail.get_task 0 none d0).1 = .error (.factoryRaised ()) ∧
    (gFail.get_task 0 none d0).1 ≠ .error (.taskGenerationError ()) :=
  ⟨rfl, fun hc => nomatch hc⟩

/-- C3, amended: in factory mode, when the revisit branch is not taken and
the factory raises, `get_task` propagates the factory's own error unchanged
(no wrapping, no retry) and the state is left exactly as it was — in
particular no new record is appended to the history. -/
theorem c3_factory_error_propagation (g : TaskGenerator T M P ε)
    (f : Nat → P → Except ε (T × M)) (ms : Nat) (seed : Option Nat)
    (d : Draws) (e : ε) (hT : g.tasks = none) (hc : g.task_callable = some f)
    (hnorev : ¬ (g.revisit_start ≤ ms ∧ g.selected_tasks.isEmpty = false ∧
        d.rand_unit < g.revisit_ratio))
    (hf : f (seed.getD (d.rand_bits % 2 ^ 64)) g.task_callable_params =
        .error e) :
    g.get_task ms seed d = (.error (.factoryRaised e), g) := by
  cases seed <;>
    simp_all [TaskGenerator.get_task, TaskGenerator.generate_new,
      Option.getD]

/-- C3, witness for the amended theorem. -/
theorem c3_factory_error_propagation_witness :
    gFail.get_task 0 none d0 = (.error (.factoryRaised ()), gFail) :=
  c3_factory_error_propagation gFail fFail 0 none d0 () rfl rfl
    (by decide) rfl

/-! Shared characterization lemmas (not tied to a single claim). -/

/-- Characterization of the catalog branch of `get_task` for a non-empty
catalog: select, append the log entry, return origin `none`. -/
theorem get_task_catalog (g : TaskGenerator T M P ε) (ts : List (T × M))
    (ms : Nat) (seed : Option Nat) (d : Draws) (h : g.tasks = some ts)
    (hlen : ts.length ≠ 0) :
    g.get_task ms seed d =
      match g.catalog_select ts (Nat.pos_of_ne_zero hlen) ms d with
      | .error e => (.error e, g)
      | .ok (task, info) =>
          (.ok (task, info, none),
           { g with selected_tasks :=
               g.selected_tasks ++ [⟨task, info, none, [ms]⟩] }) := by
  simp [TaskGenerator.get_task, h, hlen]

/-- In the factory branch, when the revisit condition holds, `get_task` is
the revisit branch. -/
theorem get_task_factory_revisit (g : TaskGenerator T M P ε)
    (f : Nat → P → Except ε (T × M)) (ms : Nat) (seed : Option Nat)
    (d : Draws) (hT : g.tasks = none) (hc : g.task_callable = some f)
    (hrev : g.revisit_start ≤ ms ∧ g.selected_tasks.isEmpty = false ∧
        d.rand_unit < g.revisit_ratio) :
    g.get_task ms seed d = g.do_revisit ms d := by
  simp [TaskGenerator.get_task, hT, hc, hrev.1, hrev.2.1, hrev.2.2]

/-- In the factory branch, when the revisit condition fails, `get_task` is
the generation branch. -/
theorem get_task_factory_generate (g : TaskGenerator T M P ε)
    (f : Nat → P → Except ε (T × M)) (ms : Nat) (seed : Option Nat)
    (d : Draws) (hT : g.tasks = none) (hc : g.task_callable = some f)
    (hnorev : ¬ (g.revisit_start ≤ ms ∧ g.selected_tasks.isEmpty = false ∧
        d.rand_unit < g.revisit_ratio)) :
    g.get_task ms seed d = g.generate_new f ms seed d := by
  simp only [TaskGenerator.get_task, hT, hc]
  rw [if_neg hnorev]

/-- Cyclic revisit index selection: deterministic, ignores the oracle,
returns `revisit_counter % len` and increments the counter. -/
theorem select_revisit_cyclic (g : TaskGenerator T M P ε) (d : Draws)
    (hm : g.sampling_method = "cyclic") :
    g.select_task_index_for_revisit d =
      (.ok (some (g.revisit_counter % g.selected_tasks.length)),
       { g with revisit_counter := g.revisit_counter + 1 }) := by
  simp [TaskGenerator.select_task_index_for_revisit, hm]

/-- Random revisit index selection: increments the counter and returns the
oracle's uniform draw over the history (`random.randint(0, len-1)`). -/
theorem select_revisit_random (g : TaskGenerator T M P ε) (d : Draws)
    (hm : g.sampling_method = "random") :
    g.select_task_index_for_revisit d =
      (.ok (some (d.choice_idx % g.selected_tasks.length)),
       { g with revisit_counter := g.revisit_counter + 1 }) := by
  simp [TaskGenerator.select_task_index_for_revisit, hm]

/-- Weighted revisit index selection: increments the counter, then raises
`NotImplementedError`. -/
theorem select_revisit_weighted (g : TaskGenerator T M P ε) (d : Draws)
    (hm : g.sampling_method = "weighted") :
    g.select_task_index_for_revisit d =
      (.error .notImplementedError,
       { g with revisit_counter := g.revisit_counter + 1 }) := by
  simp [TaskGenerator.select_task_index_for_revisit, hm]

/-- Cyclic revisit: the record at `revisit_counter % len` is returned with
the first element of its step list as origin, its step list gains the
current step, and the counter advances. -/
theorem do_revisit_cyclic (g : TaskGenerator T M P ε) (ms : Nat) (d : Draws)
    (hm : g.sampling_method = "cyclic") (hne : g.selected_tasks ≠ []) :
    g.do_revisit ms d =
      (.ok ((g.revisit_record hne).task, (g.revisit_record hne).task_info,
            some (((g.revisit_record hne).meta_step ++ [ms]).head (by simp))),
       { g with revisit_counter := g.revisit_counter + 1,
                selected_tasks := g.selected_tasks.set
                  (g.revisit_counter % g.selected_tasks.length)
                  ({ g.revisit_record hne with
                      meta_step := (g.revisit_record hne).meta_step ++ [ms] }) }) := by
  have pos : g.revisit_counter % g.selected_tasks.length <
      g.selected_tasks.length :=
    Nat.mod_lt _ (List.length_pos.mpr hne)
  simp only [TaskGenerator.do_revisit, select_revisit_cyclic g d hm]
  rw [show ({ g with revisit_counter := g.revisit_counter + 1 } :
      TaskGenerator T M P ε).selected_tasks.get? (g.revisit_counter %
        g.selected_tasks.length) =
      some (g.revisit_record hne) from by
    simp [TaskGenerator.revisit_record, List.get?_eq_get pos]]

/-- C4: in catalog mode every successful `get_task` call returns origin
`none` and appends exactly the lightweight log entry
`(task, info, [step], seed = None)`; the returned value is independent of
the contents of `selected_tasks` (the log is write-only, never consulted
for selection), and the revisit counter is untouched. -/
theorem c4_catalog_write_only (g : TaskGenerator T M P ε)
    (ts : List (T × M)) (ms : Nat) (seed : Option Nat) (d : Draws)
    (h : g.tasks = some ts) :
    (∀ t m o, (g.get_task ms seed d).1 = .ok (t, m, o) →
        o = none ∧ (g.get_task ms seed d).2 =
          { g with selected_tasks :=
              g.selected_tasks ++ [⟨t, m, none, [ms]⟩] }) ∧
    (∀ log2, ((({ g with selected_tasks := log2 } :
        TaskGenerator T M P ε).get_task ms seed d).1 =
        (g.get_task ms seed d).1)) ∧
    (g.get_task ms seed d).2.revisit_counter = g.revisit_counter := by
  by_cases hlen : ts.length = 0
  · have hnil : ts = [] := List.length_eq_zero.mp hlen
    subst hnil
    simp [TaskGenerator.get_task, h]
  · rw [get_task_catalog g ts ms seed d h hlen]
    have hsel : ∀ log2 : List (TaskRecord T M),
        ({ g with selected_tasks := log2 } :
          TaskGenerator T M P ε).catalog_select ts (Nat.pos_of_ne_zero hlen)
            ms d = g.catalog_select ts (Nat.pos_of_ne_zero hlen) ms d := by
      intro log2
      simp [TaskGenerator.catalog_select]
    refine ⟨?_, ?_, ?_⟩
    · intro t m o
      cases hs : g.catalog_select ts (Nat.pos_of_ne_zero hlen) ms d with
      | error e => simp [hs]
      | ok tm => cases tm with
        | mk a b =>
            simp only [hs]
            intro hok
            obtain ⟨rfl, rfl, rfl⟩ := by simpa using hok
            simp
    · intro log2
      rw [get_task_catalog ({ g with selected_tasks := log2 }) ts ms seed d
        (by simpa using h) hlen, hsel log2]
      cases hs : g.catalog_select ts (Nat.pos_of_ne_zero hlen) ms d with
      | error e => simp [hs]
      | ok tm => cases tm with
        | mk a b => simp [hs]
    · cases hs : g.catalog_select ts (Nat.pos_of_ne_zero hlen) ms d with
      | error e => simp [hs]
      | ok tm => cases tm with
        | mk a b => simp [hs]

/-- C4, witness. -/
theorem c4_catalog_write_only_witness :
    (gBogusCat.get_task 0 none d0).2.revisit_counter =
      gBogusCat.revisit_counter :=
  (c4_catalog_write_only gBogusCat [(1, 2)] 0 none d0 rfl).2.2

/-- C5: in factory mode a call with `step < revisit_start` or an empty
history is always a generation; concretely, with `ratio = 1.0` and
`revisit_start = 5` the calls at steps `0..4` leave exactly five history
records, each with a single-element step list, and from that state every
call at a step `≥ 5` (with the uniform draw below the ratio `1`) is a
revisit. -/
theorem c5_revisit_gating :
    (∀ (g : TaskGenerator T M P ε) (f : Nat → P → Except ε (T × M))
        (ms : Nat) (seed : Option Nat) (d : Draws), g.tasks = none →
        g.task_callable = some f →
        (ms < g.revisit_start ∨ g.selected_tasks = []) →
        g.get_task ms seed d = g.generate_new f ms seed d) ∧
    gFac5.selected_tasks.map TaskRecord.meta_step =
      [[0], [1], [2], [3], [4]] ∧
    (∀ (ms : Nat) (d : Draws), 5 ≤ ms → d.rand_unit < 1 →
        gFac5.get_task ms none d = gFac5.do_revisit ms d) := by
  refine ⟨?_, by decide, ?_⟩
  · intro g f ms seed d hT hc hng
    refine get_task_factory_generate g f ms seed d hT hc fun hcond => ?_
    rcases hng with hlt | hnil
    · exact absurd hcond.1 (Nat.not_le.mpr hlt)
    · rw [hnil] at hcond
      exact absurd hcond.2.1 (by simp)
  · intro ms d hms hr
    exact get_task_factory_revisit gFac5 fNat ms none d rfl rfl
      ⟨hms, by decide, hr⟩

/-- C5, witness. -/
theorem c5_revisit_gating_witness :
    gFac.get_task 0 (some 10) d0 = gFac.generate_new fNat 0 (some 10) d0 ∧
    gFac5.get_task 6 none d0 = gFac5.do_revisit 6 d0 :=
  ⟨(c5_revisit_gating (T := Nat) (M := Nat) (P := Unit) (ε := Empty)).1 gFac
      fNat 0 (some 10) d0 rfl rfl (Or.inl (by decide)),
   (c5_revisit_gating (T := Nat) (M := Nat) (P := Unit) (ε := Empty)).2.2 6
      d0 (by decide) (by decide)⟩

/-- Head of a list extended on the right by one element, when the list is
non-empty, is the head of the original list. -/
theorem head_append_singleton {α : Type} (l : List α) (x : α) (hl : l ≠ [])
    (h2 : l ++ [x] ≠ []) : (l ++ [x]).head h2 = l.head hl := by
  cases l with
  | nil => exact absurd rfl hl
  | cons a t => rfl

/-- C6: EVERY revisit that selects a history record — under any selection
policy that yields an index, and both the cyclic policy and the default
random policy always yield an in-range index when the history is non-empty
— appends the current step to the selected record's step list and returns
that record's task, metadata and the FIRST element of its step list (the
creation step, not the current step); concretely, generating at step 3 and
then revisiting that record at step 7 returns origin 3 and leaves the
record's step list equal to `[3, 7]`, under the cyclic policy and under
the random policy alike. -/
theorem c6_revisit_lineage :
    (∀ (g g2 : TaskGenerator T M P ε) (ms : Nat) (d : Draws) (i : Nat),
        g.select_task_index_for_revisit d = (.ok (some i), g2) →
        ∀ (hi : i < g2.selected_tasks.length)
          (hne2 : (g2.selected_tasks.get ⟨i, hi⟩).meta_step ≠ []),
        g.do_revisit ms d =
          (.ok ((g2.selected_tasks.get ⟨i, hi⟩).task,
                (g2.selected_tasks.get ⟨i, hi⟩).task_info,
                some ((g2.selected_tasks.get ⟨i, hi⟩).meta_step.head hne2)),
           { g2 with selected_tasks := (g2.selected_tasks.set i
               { g2.selected_tasks.get ⟨i, hi⟩ with
                   meta_step :=
                     (g2.selected_tasks.get ⟨i, hi⟩).meta_step ++
                       [ms] }) })) ∧
    (∀ (g : TaskGenerator T M P ε) (d : Draws), g.selected_tasks ≠ [] →
        g.sampling_method = "cyclic" ∨ g.sampling_method = "random" →
        ∃ i, g.select_task_index_for_revisit d =
            (.ok (some i),
             { g with revisit_counter := g.revisit_counter + 1 }) ∧
          i < g.selected_tasks.length) ∧
    ((gLin.run_steps [(3, some 30, d0), (7, none, d0)]).1.map originOf =
        [some (some 3), some (some 3)]) ∧
    ((gLin.run_steps [(3, some 30, d0), (7, none, d0)]).2.selected_tasks.map
        TaskRecord.meta_step = [[3, 7]]) ∧
    ((gLinR.run_steps [(3, some 30, d0), (7, none, d0)]).1.map originOf =
        [some (some 3), some (some 3)]) ∧
    ((gLinR.run_steps [(3, some 30, d0),
        (7, none, d0)]).2.selected_tasks.map
        TaskRecord.meta_step = [[3, 7]]) := by
  refine ⟨?_, ?_, by decide, by decide, by decide, by decide⟩
  · intro g g2 ms d i hsel hi hne2
    simp only [TaskGenerator.do_revisit, hsel, List.get?_eq_get hi]
    rw [head_append_singleton _ ms hne2]
  · intro g d hne hm
    rcases hm with hm | hm
    · exact ⟨g.revisit_counter % g.selected_tasks.length,
        select_revisit_cyclic g d hm,
        Nat.mod_lt _ (List.length_pos.mpr hne)⟩
    · exact ⟨d.choice_idx % g.selected_tasks.length,
        select_revisit_random g d hm,
        Nat.mod_lt _ (List.length_pos.mpr hne)⟩

/-- C6, witness: a concrete random-policy revisit (generation at step 3,
revisit at step 7) returning origin 3 and recording `[3, 7]`. -/
theorem c6_revisit_lineage_witness :
    gLinR1.do_revisit 7 d0 =
      (.ok (30, 0, some 3),
       { gLinR1 with revisit_counter := 1,
                     selected_tasks := [⟨30, 0, some 30, [3, 7]⟩] }) :=
  c6_revisit_lineage.1 gLinR1 ({ gLinR1 with revisit_counter := 1 }) 7 d0 0
    rfl (by decide) (by decide)

/-- C7: in factory mode with `sampling_method = "weighted"`, every call
that takes the revisit branch raises `NotImplementedError` (the spec's
`UnsupportedOperationError`) after incrementing the revisit counter, and
never falls back to another selection policy. -/
theorem c7_weighted_revisit (g : TaskGenerator T M P ε)
    (f : Nat → P → Except ε (T × M)) (ms : Nat) (seed : Option Nat)
    (d : Draws) (hT : g.tasks = none) (hc : g.task_callable = some f)
    (hm : g.sampling_method = "weighted")
    (hrev : g.revisit_start ≤ ms ∧ g.selected_tasks.isEmpty = false ∧
        d.rand_unit < g.revisit_ratio) :
    g.get_task ms seed d =
      (.error .notImplementedError,
       { g with revisit_counter := g.revisit_counter + 1 }) := by
  rw [get_task_factory_revisit g f ms seed d hT hc hrev]
  simp only [TaskGenerator.do_revisit, select_revisit_weighted g d hm]

/-- C7, witness. -/
theorem c7_weighted_revisit_witness :
    gW.get_task 1 none d0 =
      (.error .notImplementedError, { gW with revisit_counter := 1 }) :=
  c7_weighted_revisit gW fNat 1 none d0 rfl rfl rfl
    ⟨by decide, by decide, by decide⟩

/-- Cyclic catalog selection serves `ts[meta_step % len(ts)]`. -/
theorem catalog_select_cyclic (g : TaskGenerator T M P ε)
    (ts : List (T × M)) (pos : 0 < ts.length) (ms : Nat) (d : Draws)
    (hm : g.sampling_method = "cyclic") :
    g.catalog_select ts pos ms d =
      .ok (ts.get ⟨ms % ts.length, Nat.mod_lt _ pos⟩) := by
  simp [TaskGenerator.catalog_select, hm]

/-- Catalog selection does not read `task_callable`. -/
theorem catalog_select_callable_invariant (g : TaskGenerator T M P ε)
    (c : Option (Nat → P → Except ε (T × M))) (ts : List (T × M))
    (pos : 0 < ts.length) (ms : Nat) (d : Draws) :
    ({ g with task_callable := c } :
        TaskGenerator T M P ε).catalog_select ts pos ms d =
      g.catalog_select ts pos ms d := by
  simp [TaskGenerator.catalog_select]

/-- One cyclic catalog-mode call: serves the entry at `ms % len(ts)` and
appends the log entry. -/
theorem get_task_catalog_cyclic (g : TaskGenerator T M P ε)
    (ts : List (T × M)) (ms : Nat) (seed : Option Nat) (d : Draws)
    (h : g.tasks = some ts) (hm : g.sampling_method = "cyclic")
    (hne : ts ≠ []) :
    g.get_task ms seed d =
      (.ok ((cyclicEntry ts hne ms).1, (cyclicEntry ts hne ms).2, none),
       { g with selected_tasks := g.selected_tasks ++
           [⟨(cyclicEntry ts hne ms).1, (cyclicEntry ts hne ms).2, none,
             [ms]⟩] }) := by
  have hlen : ts.length ≠ 0 := fun h0 => hne (List.length_eq_zero.mp h0)
  rw [get_task_catalog g ts ms seed d h hlen,
    catalog_select_cyclic g ts (Nat.pos_of_ne_zero hlen) ms d hm]
  rfl

/-- Running a cyclic catalog-mode scheduler over any call list returns the
entry at `step % len(ts)` for every call, independently of the draws, the
seeds, and the accumulated log. -/
theorem run_steps_catalog_cyclic (ts : List (T × M)) (hne : ts ≠ [])
    (calls : List (Nat × Option Nat × Draws)) :
    ∀ g : TaskGenerator T M P ε, g.tasks = some ts →
      g.sampling_method = "cyclic" →
      (g.run_steps calls).1 = calls.map (fun c =>
        .ok ((cyclicEntry ts hne c.1).1, (cyclicEntry ts hne c.1).2,
          none)) := by
  induction calls with
  | nil => intro g h hm; simp [TaskGenerator.run_steps]
  | cons c rest ih =>
      intro g h hm
      obtain ⟨ms, seed, d⟩ := c
      simp only [TaskGenerator.run_steps]
      rw [get_task_catalog_cyclic g ts ms seed d h hm hne]
      rw [ih _ (by simpa using h) (by simpa using hm)]
      simp

/-- Cyclic coverage of the range `0..2*len(ts)-1`: each entry exactly
twice, in catalog order. -/
theorem map_range_cyclicEntry (ts : List (T × M)) (hne : ts ≠ []) :
    (List.range (2 * ts.length)).map (cyclicEntry ts hne) = ts ++ ts := by
  have hpos : 0 < ts.length := List.length_pos.mpr hne
  apply List.ext_getElem
  · simp [two_mul]
  · intro i h1 h2
    simp only [List.getElem_map, List.getElem_range]
    have hi2 : i < 2 * ts.length := by simpa using h1
    unfold cyclicEntry
    by_cases hi : i < ts.length
    · simp [List.get_eq_getElem, Nat.mod_eq_of_lt hi, List.getElem_append,
        hi]
    · have hge : ts.length ≤ i := Nat.le_of_not_lt hi
      have hsub : i - ts.length < ts.length := by omega
      have hmod : i % ts.length = i - ts.length := by
        rw [Nat.mod_eq_sub_mod hge, Nat.mod_eq_of_lt hsub]
      simp [List.get_eq_getElem, hmod, List.getElem_append, hi]

/-- C8: in catalog mode with cyclic sampling, every call at step `s` serves
the catalog entry at index `s % len(catalog)`; consequently calling at
steps `0..2N-1` (for a catalog of size `N`, any seeds, any draws) returns
each catalog entry exactly twice, in catalog order. -/
theorem c8_catalog_cyclic (g : TaskGenerator T M P ε) (ts : List (T × M))
    (h : g.tasks = some ts) (hm : g.sampling_method = "cyclic")
    (hne : ts ≠ []) (seeds : Nat → Option Nat) (dr : Nat → Draws) :
    (∀ (ms : Nat) (seed : Option Nat) (d : Draws),
        (g.get_task ms seed d).1 =
          .ok ((cyclicEntry ts hne ms).1, (cyclicEntry ts hne ms).2,
            none)) ∧
    (g.run_steps ((List.range (2 * ts.length)).map
        (fun s => (s, seeds s, dr s)))).1 =
      (ts ++ ts).map (fun tm => .ok (tm.1, tm.2, none)) := by
  constructor
  · intro ms seed d
    rw [get_task_catalog_cyclic g ts ms seed d h hm hne]
  · rw [run_steps_catalog_cyclic ts hne _ g h hm,
      ← map_range_cyclicEntry ts hne]
    simp [List.map_map, Function.comp]

/-- C8, witness. -/
theorem c8_catalog_cyclic_witness :
    (gCat.run_steps ((List.range 6).map (fun s => (s, none, d0)))).1 =
      ([((1 : Nat), (10 : Nat)), (2, 20), (3, 30)] ++
        [(1, 10), (2, 20), (3, 30)]).map
        (fun tm : Nat × Nat =>
          (.ok (tm.1, tm.2, none) :
            Except (Err Empty) (Nat × Nat × Option Nat))) :=
  (c8_catalog_cyclic gCat [(1, 10), (2, 20), (3, 30)] rfl rfl (by decide)
      (fun _ => none) (fun _ => d0)).2

/-- C9: cyclic revisit selection picks history index
`revisit_counter % len(History)` and then increments the counter,
deterministically and independently of the oracle; with a history of size 3
(records created at steps 0, 1, 2) four consecutive revisits return the
records created at steps 0, 1, 2 and then wrap back to 0, leaving the
history size unchanged. -/
theorem c9_cyclic_revisit_round_robin :
    (∀ (g : TaskGenerator T M P ε) (d : Draws),
        g.sampling_method = "cyclic" →
        g.select_task_index_for_revisit d =
          (.ok (some (g.revisit_counter % g.selected_tasks.length)),
           { g with revisit_counter := g.revisit_counter + 1 })) ∧
    ((gRR3.run_steps [(0, some 10, d0), (1, some 11, d0), (2, some 12, d0),
        (3, none, d0), (4, none, d0), (5, none, d0), (6, none, d0)]).1.map
        originOf =
      [some (some 0), some (some 1), some (some 2),
       some (some 0), some (some 1), some (some 2), some (some 0)]) ∧
    ((gRR3.run_steps [(0, some 10, d0), (1, some 11, d0), (2, some 12, d0),
        (3, none, d0), (4, none, d0), (5, none, d0),
        (6, none, d0)]).2.selected_tasks.length = 3) :=
  ⟨fun g d hm => select_revisit_cyclic g d hm, by decide, by decide⟩

/-- C9, witness. -/
theorem c9_cyclic_revisit_round_robin_witness :
    gRR3.select_task_index_for_revisit d0 =
      (.ok (some (gRR3.revisit_counter % gRR3.selected_tasks.length)),
       { gRR3 with revisit_counter := gRR3.revisit_counter + 1 }) :=
  (c9_cyclic_revisit_round_robin (T := Nat) (M := Nat) (P := Unit)
      (ε := Empty)).1 gRR3 d0 rfl

/-- C10: if both a catalog and a factory are supplied, construction
succeeds, and every `get_task` call on a state whose catalog is set is
independent of `task_callable` (the factory branch is never reached) and
preserves the catalog, so the precedence persists across calls. -/
theorem c10_catalog_precedence :
    (∀ (ts : List (T × M)) (f : Nat → P → Except ε (T × M)) (p : P)
        (rr : ℚ) (rs : Nat) (sm : String) (sw : Option (List ℚ)),
        ∃ g : TaskGenerator T M P ε,
          TaskGenerator.init (some ts) (some f) p rr rs sm sw = .ok g ∧
          g.tasks = some ts) ∧
    (∀ (g : TaskGenerator T M P ε) (ts : List (T × M))
        (c : Option (Nat → P → Except ε (T × M))) (ms : Nat)
        (seed : Option Nat) (d : Draws), g.tasks = some ts →
        (({ g with task_callable := c } :
            TaskGenerator T M P ε).get_task ms seed d =
          ((g.get_task ms seed d).1,
           { (g.get_task ms seed d).2 with task_callable := c })) ∧
        (g.get_task ms seed d).2.tasks = some ts) := by
  constructor
  · intro ts f p rr rs sm sw
    exact ⟨_, rfl, rfl⟩
  · intro g ts c ms seed d h
    by_cases hlen : ts.length = 0
    · constructor <;> simp [TaskGenerator.get_task, h, hlen]
    · constructor
      · rw [get_task_catalog ({ g with task_callable := c }) ts ms seed d
            (by simpa using h) hlen,
          get_task_catalog g ts ms seed d h hlen,
          catalog_select_callable_invariant]
        cases hs : g.catalog_select ts (Nat.pos_of_ne_zero hlen) ms d with
        | error e => simp
        | ok tm => cases tm with | mk a b => simp
      · rw [get_task_catalog g ts ms seed d h hlen]
        cases hs : g.catalog_select ts (Nat.pos_of_ne_zero hlen) ms d with
        | error e => simp [h]
        | ok tm => cases tm with | mk a b => simp [h]

/-- C10, witness. -/
theorem c10_catalog_precedence_witness :
    gBoth.get_task 0 none d0 =
      ((gBoth.get_task 0 none d0).1,
       { (gBoth.get_task 0 none d0).2 with task_callable := some fUnit }) :=
  ((c10_catalog_precedence (T := Nat) (M := Nat) (P := Unit)
      (ε := Empty)).2 gBoth [(7, 8)] (some fUnit) 0 none d0 rfl).1

end EMSMetaRL
